import Mathlib

/-!
# VisionCheck Kenya — verification of the clinical measurement algorithms

Shallow embedding of the three algorithmic cores of the repository:

* the astigmatic-dial interpretation (`interpretEyeResult`, `checkConsistency`,
  `averageAngles` from `src/components/VisionTests/AstigmatismTest.tsx`),
* the visual-acuity progression and calibration
  (`handleDistanceAnswer`, `handleCantSee`, `DISTANCE_TEST_LINES`,
  `NEAR_VISION_LINES` from `src/components/VisionTests/VisualAcuityTest.tsx`),
* the Ishihara plate engine (`seededRandom`, `generatePlateDots`, `diagnose`
  from the color-vision test component).

JavaScript numbers are modelled with `ℚ` where the source only performs
field operations and comparisons on decimal literals (all exact in the
modelled range), and with `ℝ` where the source uses trigonometry
(`Math.sin`, `Math.cos`, `Math.atan2`); `Math.atan2 y x` is modelled as the
complex argument of `x + y·i`, which has the same value and range `(-π, π]`.
-/

/-- JavaScript `Math.round` on an exact rational: round half towards +∞. -/
def jsRoundQ (x : ℚ) : ℤ := ⌊x + 1/2⌋

/-- JavaScript `Math.round` on a real: round half towards +∞. -/
noncomputable def jsRoundR (x : ℝ) : ℤ := ⌊x + 1/2⌋

/-- JavaScript `%` on reals, for a nonnegative dividend and positive divisor
(the only way the sources use it): `x - y * ⌊x / y⌋`. -/
noncomputable def fmodR (x y : ℝ) : ℝ := x - y * ⌊x / y⌋

/-- JavaScript `Math.atan2 y x`: the argument of the complex number `x + y·i`,
in the interval `(-π, π]`. -/
noncomputable def atan2 (y x : ℝ) : ℝ := Complex.arg (x + y * Complex.I)

theorem fmodR_eq_self {x y : ℝ} (h0 : 0 ≤ x) (hxy : x < y) : fmodR x y = x := by
  have hy : 0 < y := lt_of_le_of_lt h0 hxy
  have hfloor : ⌊x / y⌋ = 0 := by
    rw [Int.floor_eq_zero_iff]
    constructor
    · positivity
    · rw [div_lt_one hy]; exact hxy
  simp [fmodR, hfloor]

-- ─────────────────────────────────────────────────────────────────────
-- Astigmatism engine (src/components/VisionTests/AstigmatismTest.tsx)
-- ─────────────────────────────────────────────────────────────────────

/-- The four severity grades of `EyeAstigmatismResult.severity`. -/
inductive Severity
  | none
  | mild
  | moderate
  | significant
deriving DecidableEq, Repr

/-- `EyeAstigmatismResult` of AstigmatismTest.tsx.  Angles are `ℚ` (the dial
offers the multiples of 15° in [0°,165°]); `suspectedAxis` stores the
`Math.round`ed axis, `Option.none` standing for JS `null`. -/
structure EyeAstigmatismResult where
  selectedAngles : List ℚ
  isUniform : Bool
  suspectedAxis : Option ℤ
  severity : Severity
  consistent : Bool

/-- Body of the inner matching loop of `checkConsistency`: the wrap-aware
circular distance `min(|a-b|, 180-|a-b|)`. -/
def circDist (a b : ℚ) : ℚ := min |a - b| (180 - |a - b|)

/-- Number of first-pass angles that find a second-pass angle within 15°
(the `matchCount` accumulated by `checkConsistency`'s nested loops; the
source breaks out of the inner loop at the first match, so the count is the
number of `a ∈ first` with at least one match). -/
def matchCount (first second : List ℚ) : ℕ :=
  (first.filter (fun a => second.any (fun b => circDist a b ≤ 15))).length

/-- `checkConsistency` of AstigmatismTest.tsx.  The final comparison
`matchCount >= Math.min(first.length, second.length) * 0.5` is exact float
arithmetic on small integers, modelled as the same comparison over `ℚ`. -/
def checkConsistency (first second : List ℚ) : Bool :=
  if first.length = 0 ∧ second.length = 0 then true
  else if first.length = 0 ∨ second.length = 0 then false
  else if ((min first.length second.length : ℕ) : ℚ) * (1/2) ≤ (matchCount first second : ℚ)
    then true else false

/-- `averageAngles` of AstigmatismTest.tsx: circular mean of meridian angles;
each angle is doubled (in radians: `a * 2 * π / 180`), sine and cosine sums
are fed to `atan2`, converted back to degrees, normalized to `[0, 360)` and
halved; a final `% 180` as in the source. -/
noncomputable def averageAngles (angles : List ℚ) : ℝ :=
  if angles.length = 0 then 0
  else if angles.length = 1 then ((angles.headI : ℚ) : ℝ)
  else
    let sinSum := (angles.map (fun (a : ℚ) => Real.sin (((a : ℝ) * 2 * Real.pi) / 180))).sum
    let cosSum := (angles.map (fun (a : ℚ) => Real.cos (((a : ℝ) * 2 * Real.pi) / 180))).sum
    let mean := atan2 sinSum cosSum * 180 / Real.pi
    let mean' := if mean < 0 then mean + 360 else mean
    fmodR (mean' / 2) 180

/-- Modelled from the spec's words (§4.4), for comparison with the source's
`averageAngles`: "compute circular mean of round-1 angles by doubling each
angle into [0°,360°) range, summing sine/cosine components, taking `atan2`,
then halving back into [0°,180°)". -/
noncomputable def circularMeanSpec (angles : List ℚ) : ℝ :=
  let sinSum := (angles.map (fun (a : ℚ) => Real.sin (((a : ℝ) * 2 * Real.pi) / 180))).sum
  let cosSum := (angles.map (fun (a : ℚ) => Real.cos (((a : ℝ) * 2 * Real.pi) / 180))).sum
  let mean := atan2 sinSum cosSum * 180 / Real.pi
  (if mean < 0 then mean + 360 else mean) / 2

/-- `interpretEyeResult` of AstigmatismTest.tsx. -/
noncomputable def interpretEyeResult (firstPass secondPass : List ℚ) : EyeAstigmatismResult :=
  if firstPass.length = 0 then
    { selectedAngles := []
      isUniform := true
      suspectedAxis := Option.none
      severity := Severity.none
      consistent := secondPass.length = 0 }
  else
    let consistent := checkConsistency firstPass secondPass
    let avgAngle := averageAngles firstPass
    let suspectedAxis := fmodR (avgAngle + 90) 180
    let severity :=
      if firstPass.length = 1 ∧ consistent = true then Severity.mild
      else if firstPass.length ≤ 2 ∧ consistent = true then Severity.moderate
      else if 3 ≤ firstPass.length ∨ consistent = false then
        (if 3 ≤ firstPass.length then Severity.significant else Severity.mild)
      else Severity.mild
    { selectedAngles := firstPass
      isUniform := false
      suspectedAxis := Option.some (jsRoundR suspectedAxis)
      severity := severity
      consistent := consistent }

/-- The severity branch of `interpretEyeResult` depends only on the number of
round-1 selections and the consistency verdict (it never reads the circular
mean), so it can be evaluated without trigonometry. -/
def severityLogic (n : ℕ) (consistent : Bool) : Severity :=
  if n = 1 ∧ consistent = true then Severity.mild
  else if n ≤ 2 ∧ consistent = true then Severity.moderate
  else if 3 ≤ n ∨ consistent = false then
    (if 3 ≤ n then Severity.significant else Severity.mild)
  else Severity.mild

theorem interpretEyeResult_severity (fp sp : List ℚ) (h : fp.length ≠ 0) :
    (interpretEyeResult fp sp).severity = severityLogic fp.length (checkConsistency fp sp) := by
  rw [interpretEyeResult, if_neg h]
  rfl

theorem interpretEyeResult_consistent (fp sp : List ℚ) (h : fp.length ≠ 0) :
    (interpretEyeResult fp sp).consistent = checkConsistency fp sp := by
  rw [interpretEyeResult, if_neg h]

/-- Claim C1, counterexample: two flagged meridians with inconsistent rounds
yield severity `mild` in the code, not `significant` as the claim states
(round 1 = {0°, 90°}, round 2 = {45°}: no angle matches within 15°, so the
rounds are inconsistent, yet the severity branch for fewer than 3 flags and
inconsistency returns `mild`). -/
theorem two_flags_inconsistent_is_mild :
    (interpretEyeResult [0, 90] [45]).severity = Severity.mild ∧
    checkConsistency [0, 90] [45] = false ∧
    ([0, 90] : List ℚ).length = 2 := by
  have hc : checkConsistency [0, 90] [45] = false := by
    norm_num [checkConsistency, matchCount, circDist, List.filter, List.any]
  refine ⟨?_, hc, by simp⟩
  rw [interpretEyeResult_severity _ _ (by simp), hc]
  rfl

/-- Claim C1 (amended): for every non-uniform round-1 selection, severity is
`significant` iff at least 3 meridians are flagged (regardless of
consistency); otherwise inconsistent rounds yield `mild` (for one OR two
flags), a single consistent flag yields `mild`, and two consistent flags
yield `moderate`. -/
theorem severity_grading (fp sp : List ℚ) (h : fp ≠ []) :
    (interpretEyeResult fp sp).severity =
      (if 3 ≤ fp.length then Severity.significant
       else if checkConsistency fp sp = false then Severity.mild
       else if fp.length = 1 then Severity.mild
       else Severity.moderate) := by
  have hlen : fp.length ≠ 0 := by simpa using h
  rw [interpretEyeResult_severity fp sp hlen]
  unfold severityLogic
  cases hc : checkConsistency fp sp with
  | false =>
    by_cases h3 : 3 ≤ fp.length
    · simp [h3, show ¬ fp.length ≤ 2 by omega, show fp.length ≠ 1 by omega]
    · simp [h3]
  | true =>
    by_cases h1 : fp.length = 1
    · simp [h1]
    · by_cases h3 : 3 ≤ fp.length
      · simp [h1, h3, show ¬ fp.length ≤ 2 by omega]
      · simp [h1, h3, show fp.length ≤ 2 by omega]

/-- Witness for `severity_grading` at round 1 = {45°}, round 2 = {50°}. -/
theorem severity_grading_witness :
    ([45] : List ℚ) ≠ [] ∧
    (interpretEyeResult [45] [50]).severity =
      (if 3 ≤ ([45] : List ℚ).length then Severity.significant
       else if checkConsistency [45] [50] = false then Severity.mild
       else if ([45] : List ℚ).length = 1 then Severity.mild
       else Severity.moderate) :=
  ⟨by simp, severity_grading [45] [50] (by simp)⟩

/-- Modelled from the spec's words for claim C8 ("rounds are consistent if at
least half of the smaller set's angles find a match"): count the matched
angles of the SMALLER of the two sets against the other set. -/
def smallerSetConsistentSpec (first second : List ℚ) : Bool :=
  if first.length ≤ second.length then
    if first.length ≤ 2 * matchCount first second then true else false
  else
    if second.length ≤ 2 * matchCount second first then true else false

/-- Claim C8, counterexample: with round 1 = {0°,15°,30°,45°,60°} and round 2
= {30°,105°,120°,135°}, three round-1 angles match (15°, 30°, 45° are within
15° of 30°), so the code reports consistent (3 ≥ 4·0.5); but only one angle
of the smaller set (round 2) finds a match, so "at least half of the smaller
set's angles find a match" is false (1 < 2). -/
theorem consistency_counts_round1_matches :
    checkConsistency [0, 15, 30, 45, 60] [30, 105, 120, 135] = true ∧
    smallerSetConsistentSpec [0, 15, 30, 45, 60] [30, 105, 120, 135] = false := by
  constructor
  · norm_num [checkConsistency, matchCount, circDist, List.filter, List.any]
  · norm_num [smallerSetConsistentSpec, matchCount, circDist, List.filter, List.any]

/-- Claim C8 (amended): a round-1 angle matches a round-2 angle when their
wrap-aware distance `min(|a-b|, 180-|a-b|)` is at most 15°, and two non-empty
rounds are consistent exactly when the number of ROUND-1 angles that find a
match is at least half the size of the smaller set; in particular
round1={45°}, round2={50°} is consistent and round1={45°}, round2={120°} is
inconsistent. -/
theorem consistency_rule (first second : List ℚ) (h1 : first ≠ []) (h2 : second ≠ []) :
    (checkConsistency first second = true ↔
      min first.length second.length ≤
        2 * (first.countP (fun a =>
          second.any (fun b => decide (min |a - b| (180 - |a - b|) ≤ 15))))) ∧
    checkConsistency [45] [50] = true ∧ checkConsistency [45] [120] = false := by
  have hl1 : first.length ≠ 0 := by simpa using h1
  have hl2 : second.length ≠ 0 := by simpa using h2
  refine ⟨?_, ?_, ?_⟩
  · rw [checkConsistency, if_neg (fun h => hl1 h.1),
      if_neg (by rintro (h | h); exacts [hl1 h, hl2 h])]
    have hmc : (first.countP (fun a =>
        second.any (fun b => decide (min |a - b| (180 - |a - b|) ≤ 15)))) =
        matchCount first second := by
      rw [List.countP_eq_length_filter]
      rfl
    rw [hmc]
    by_cases hC : ((min first.length second.length : ℕ) : ℚ) * (1/2) ≤ (matchCount first second : ℚ)
    · rw [if_pos hC]
      push_cast at hC
      refine iff_of_true rfl ?_
      have h2c : ((min first.length second.length : ℕ) : ℚ) ≤ ((2 * matchCount first second : ℕ) : ℚ) := by
        push_cast
        linarith
      exact_mod_cast h2c
    · rw [if_neg hC]
      rw [not_le] at hC
      push_cast at hC
      refine iff_of_false (by simp) ?_
      rw [not_le]
      have h2c : ((2 * matchCount first second : ℕ) : ℚ) < ((min first.length second.length : ℕ) : ℚ) := by
        push_cast
        linarith
      exact_mod_cast h2c
  · norm_num [checkConsistency, matchCount, circDist, List.filter, List.any]
  · norm_num [checkConsistency, matchCount, circDist, List.filter, List.any]

/-- Witness for `consistency_rule` at round 1 = {45°}, round 2 = {50°}. -/
theorem consistency_rule_witness :
    ([45] : List ℚ) ≠ [] ∧ ([50] : List ℚ) ≠ [] ∧
    ((checkConsistency [45] [50] = true ↔
      min ([45] : List ℚ).length ([50] : List ℚ).length ≤
        2 * (([45] : List ℚ).countP (fun a =>
          ([50] : List ℚ).any (fun b => decide (min |a - b| (180 - |a - b|) ≤ 15))))) ∧
    checkConsistency [45] [50] = true ∧ checkConsistency [45] [120] = false) :=
  ⟨by simp, by simp, consistency_rule [45] [50] (by simp) (by simp)⟩

-- ─────────────────────────────────────────────────────────────────────
-- Visual acuity (src/components/VisionTests/VisualAcuityTest.tsx)
-- ─────────────────────────────────────────────────────────────────────

/-- One row of `DISTANCE_TEST_LINES` before the `.map` that adds `fontSize`. -/
structure DistLine where
  line : ℕ
  acuity : String
  decimal : ℚ
  letters : List String
  letterHeightMm : ℚ
deriving DecidableEq, Repr

instance : Inhabited DistLine := ⟨⟨0, "", 0, [], 0⟩⟩

/-- `mmToDp`: `mm * (BASE_DPI / 25.4)`.  `BASE_DPI` is 163 on iOS and 160
otherwise, so it is kept as a parameter. -/
def mmToDp (baseDpi mm : ℚ) : ℚ := mm * (baseDpi / (254/10))

/-- `MAX_LETTER_FONT = SCREEN_WIDTH - 80`, parameterized by the device
screen width. -/
def maxLetterFont (screenWidth : ℚ) : ℚ := screenWidth - 80

/-- The eight rows of `DISTANCE_TEST_LINES` (the literal before the map). -/
def DISTANCE_TEST_LINES_DATA : List DistLine :=
  [ ⟨1, "6/60", 1/10, ["E"], 4365/100⟩,
    ⟨2, "6/36", 17/100, ["F", "P"], 2619/100⟩,
    ⟨3, "6/24", 25/100, ["D", "O", "Z"], 1746/100⟩,
    ⟨4, "6/18", 33/100, ["N", "P", "E", "H"], 1310/100⟩,
    ⟨5, "6/12", 5/10, ["P", "E", "C", "F", "D"], 873/100⟩,
    ⟨6, "6/9", 67/100, ["E", "D", "F", "C", "Z", "P"], 655/100⟩,
    ⟨7, "6/7.5", 8/10, ["F", "E", "K", "O", "P", "Z", "D"], 546/100⟩,
    ⟨8, "6/6", 1, ["D", "E", "F", "P", "O", "N", "E", "C"], 437/100⟩ ]

/-- A distance row together with the `fontSize` the final `.map` adds:
`Math.round(Math.min(mmToDp(letterHeight_mm), MAX_LETTER_FONT))`. -/
structure SizedDistLine extends DistLine where
  fontSize : ℤ
deriving DecidableEq, Repr

/-- `DISTANCE_TEST_LINES`: the rows with their clamped-and-rounded font
sizes, parameterized by platform dpi and screen width. -/
def DISTANCE_TEST_LINES (baseDpi screenWidth : ℚ) : List SizedDistLine :=
  DISTANCE_TEST_LINES_DATA.map (fun row =>
    ⟨row, jsRoundQ (min (mmToDp baseDpi row.letterHeightMm) (maxLetterFont screenWidth))⟩)

/-- One row of `NEAR_VISION_LINES` before the `.map` that adds `fontSize`. -/
structure NearLine where
  level : String
  equivalent : String
  pointSizeMm : ℚ
  text : String
deriving DecidableEq, Repr

/-- The seven rows of `NEAR_VISION_LINES` (`description` strings omitted:
they are presentational and never read by the logic). -/
def NEAR_VISION_LINES_DATA : List NearLine :=
  [ ⟨"J10", "N36", 1350/100, "THE QUICK BROWN FOX"⟩,
    ⟨"J8", "N24", 9, "THE QUICK BROWN FOX JUMPS"⟩,
    ⟨"J6", "N18", 675/100, "THE QUICK BROWN FOX JUMPS OVER"⟩,
    ⟨"J5", "N12", 45/10, "The quick brown fox jumps over the lazy"⟩,
    ⟨"J3", "N8", 3, "The quick brown fox jumps over the lazy dog"⟩,
    ⟨"J2", "N6", 225/100, "The quick brown fox jumps over the lazy dog nearby"⟩,
    ⟨"J1", "N5", 1875/1000, "The quick brown fox jumps over the lazy dog in the field"⟩ ]

/-- A near-vision row with the `fontSize` the final `.map` adds:
`Math.round(mmToDp(pointSize_mm))` — note: no clamping. -/
structure SizedNearLine extends NearLine where
  fontSize : ℤ
deriving DecidableEq, Repr

/-- `NEAR_VISION_LINES`: rows with their rounded (unclamped) font sizes. -/
def NEAR_VISION_LINES (baseDpi : ℚ) : List SizedNearLine :=
  NEAR_VISION_LINES_DATA.map (fun row => ⟨row, jsRoundQ (mmToDp baseDpi row.pointSizeMm)⟩)

/-- The per-eye mutable state of the distance test:
`currentLineIndex`, `currentLetterIndex`, `consecutiveErrors`. -/
structure AcuityState where
  currentLineIndex : ℕ
  currentLetterIndex : ℕ
  consecutiveErrors : ℕ
deriving DecidableEq, Repr

/-- `EyeResult` of VisualAcuityTest.tsx (the record built by
`finishDistanceEye`). -/
structure EyeResult where
  acuity : String
  linesRead : ℕ
  decimal : ℚ
deriving DecidableEq, Repr

/-- Outcome of one `handleDistanceAnswer` call: either the updated state
(the React `set...` calls) or the eye's final result (`finishDistanceEye`). -/
inductive DistStep
  | next (s : AcuityState)
  | finished (r : EyeResult)
deriving DecidableEq, Repr

/-- The `{acuity, linesRead: line, decimal}` record of `finishDistanceEye`. -/
def mkEyeResult (l : DistLine) : EyeResult := ⟨l.acuity, l.line, l.decimal⟩

/-- The `bestLine` computed on termination:
`currentLineIndex > 0 ? DISTANCE_TEST_LINES[currentLineIndex-1] : DISTANCE_TEST_LINES[0]`. -/
def bestLineBelow (k : ℕ) : DistLine :=
  if 0 < k then DISTANCE_TEST_LINES_DATA.getD (k - 1) default
  else DISTANCE_TEST_LINES_DATA.getD 0 default

/-- `handleDistanceAnswer` of VisualAcuityTest.tsx.  `fontSize` plays no role
in the progression, so the state machine reads `DISTANCE_TEST_LINES_DATA`.
`isCorrect` is `answer === currentLetter` with
`currentLetter = line.letters[currentLetterIndex]` (an out-of-range access is
JS `undefined`, equal to no string, modelled by the `Option` comparison). -/
def handleDistanceAnswer (st : AcuityState) (answer : String) : DistStep :=
  let line := DISTANCE_TEST_LINES_DATA.getD st.currentLineIndex default
  let isCorrect := line.letters.get? st.currentLetterIndex = some answer
  let newErrors := if isCorrect then 0 else st.consecutiveErrors + 1
  if ¬ isCorrect ∧ 2 ≤ newErrors then
    DistStep.finished (mkEyeResult (bestLineBelow st.currentLineIndex))
  else if st.currentLetterIndex < line.letters.length - 1 then
    DistStep.next ⟨st.currentLineIndex, st.currentLetterIndex + 1, newErrors⟩
  else if ¬ isCorrect then
    DistStep.finished (mkEyeResult (bestLineBelow st.currentLineIndex))
  else if st.currentLineIndex < DISTANCE_TEST_LINES_DATA.length - 1 then
    DistStep.next ⟨st.currentLineIndex + 1, 0, 0⟩
  else
    DistStep.finished (mkEyeResult (DISTANCE_TEST_LINES_DATA.getD (DISTANCE_TEST_LINES_DATA.length - 1) default))

/-- `handleCantSee` of VisualAcuityTest.tsx: terminate at the previous line,
or — on the very first line — at the sentinel
`{...DISTANCE_TEST_LINES[0], acuity: 'Worse than 6/60', decimal: 0.05, line: 0}`. -/
def handleCantSee (st : AcuityState) : EyeResult :=
  if 0 < st.currentLineIndex then
    mkEyeResult (DISTANCE_TEST_LINES_DATA.getD (st.currentLineIndex - 1) default)
  else
    ⟨"Worse than 6/60", 0, 5/100⟩

instance : Inhabited SizedDistLine := ⟨⟨default, 0⟩⟩

instance : Inhabited NearLine := ⟨⟨"", "", 0, ""⟩⟩

instance : Inhabited SizedNearLine := ⟨⟨default, 0⟩⟩

/-- `handleDistanceAnswer` on a second consecutive error (shared helper):
`newErrors` reaches 2, so the eye finishes at `bestLine` immediately,
regardless of the letter position. -/
theorem handleDistanceAnswer_second_error (st : AcuityState) (answer : String)
    (herr : st.consecutiveErrors = 1)
    (hwrong : ¬ ((DISTANCE_TEST_LINES_DATA.getD st.currentLineIndex default).letters.get?
      st.currentLetterIndex = some answer)) :
    handleDistanceAnswer st answer =
      DistStep.finished (mkEyeResult (bestLineBelow st.currentLineIndex)) := by
  simp only [handleDistanceAnswer, herr]
  simp at hwrong
  simp [hwrong]

/-- Claim C3, counterexample: a FIRST incorrect answer (`consecutiveErrors`
going from 0 to 1) given on the last letter of a row does NOT stay on the
level: in state (line 1, letter 1 — the last letter "P" of row ["F","P"] —
0 errors), a wrong answer terminates the eye with the previous line's result
instead of advancing. -/
theorem first_error_on_last_letter_terminates :
    handleDistanceAnswer ⟨1, 1, 0⟩ "X" = DistStep.finished ⟨"6/60", 1, 1/10⟩ ∧
    (∀ s : AcuityState, handleDistanceAnswer ⟨1, 1, 0⟩ "X" ≠ DistStep.next s) := by
  refine ⟨by rfl, fun s h => ?_⟩
  rw [show handleDistanceAnswer ⟨1, 1, 0⟩ "X" = DistStep.finished ⟨"6/60", 1, 1/10⟩ from rfl] at h
  exact DistStep.noConfusion h

/-- Claim C3 (amended): a single incorrect answer (bringing
`consecutiveErrors` to 1) keeps the machine on the same level and advances to
the next letter only when the letter was not the last of its row; on the last
letter it terminates with the previous line's result (line 0's own result on
the first line). -/
theorem single_error_progression (st : AcuityState) (answer : String)
    (herr : st.consecutiveErrors = 0)
    (hwrong : ¬ ((DISTANCE_TEST_LINES_DATA.getD st.currentLineIndex default).letters.get?
      st.currentLetterIndex = some answer)) :
    handleDistanceAnswer st answer =
      (if st.currentLetterIndex <
          (DISTANCE_TEST_LINES_DATA.getD st.currentLineIndex default).letters.length - 1 then
        DistStep.next ⟨st.currentLineIndex, st.currentLetterIndex + 1, 1⟩
      else
        DistStep.finished (mkEyeResult (bestLineBelow st.currentLineIndex))) := by
  simp only [handleDistanceAnswer, herr]
  simp at hwrong
  simp [hwrong]

/-- Witness for `single_error_progression`: state (line 3, letter 1, 0
errors), wrong answer "Z" (the current letter is "P"). -/
theorem single_error_progression_witness :
    (⟨3, 1, 0⟩ : AcuityState).consecutiveErrors = 0 ∧
    ¬ ((DISTANCE_TEST_LINES_DATA.getD (⟨3, 1, 0⟩ : AcuityState).currentLineIndex
        default).letters.get? (⟨3, 1, 0⟩ : AcuityState).currentLetterIndex = some "Z") ∧
    handleDistanceAnswer ⟨3, 1, 0⟩ "Z" =
      (if (⟨3, 1, 0⟩ : AcuityState).currentLetterIndex <
          (DISTANCE_TEST_LINES_DATA.getD (⟨3, 1, 0⟩ : AcuityState).currentLineIndex
            default).letters.length - 1 then
        DistStep.next ⟨(⟨3, 1, 0⟩ : AcuityState).currentLineIndex,
          (⟨3, 1, 0⟩ : AcuityState).currentLetterIndex + 1, 1⟩
      else
        DistStep.finished (mkEyeResult (bestLineBelow
          (⟨3, 1, 0⟩ : AcuityState).currentLineIndex))) :=
  ⟨rfl, by decide, single_error_progression ⟨3, 1, 0⟩ "Z" rfl (by decide)⟩

/-- Claim C6: with `consecutiveErrors` already 1, a second wrong answer on
level k terminates the eye with the level-(k−1) result when k > 0, and with
the level-0 result (the largest line, never an error) when k = 0. -/
theorem two_errors_best_line (st : AcuityState) (answer : String)
    (herr : st.consecutiveErrors = 1)
    (hwrong : ¬ ((DISTANCE_TEST_LINES_DATA.getD st.currentLineIndex default).letters.get?
      st.currentLetterIndex = some answer)) :
    handleDistanceAnswer st answer =
      DistStep.finished (mkEyeResult
        (if 0 < st.currentLineIndex
         then DISTANCE_TEST_LINES_DATA.getD (st.currentLineIndex - 1) default
         else DISTANCE_TEST_LINES_DATA.getD 0 default)) := by
  rw [handleDistanceAnswer_second_error st answer herr hwrong]
  rfl

/-- Witness for `two_errors_best_line`: state (line 2, letter 0, 1 error),
wrong answer "Q" (the current letter is "D"); the result is line 1's record. -/
theorem two_errors_best_line_witness :
    (⟨2, 0, 1⟩ : AcuityState).consecutiveErrors = 1 ∧
    ¬ ((DISTANCE_TEST_LINES_DATA.getD (⟨2, 0, 1⟩ : AcuityState).currentLineIndex
        default).letters.get? (⟨2, 0, 1⟩ : AcuityState).currentLetterIndex = some "Q") ∧
    handleDistanceAnswer ⟨2, 0, 1⟩ "Q" =
      DistStep.finished (mkEyeResult
        (if 0 < (⟨2, 0, 1⟩ : AcuityState).currentLineIndex
         then DISTANCE_TEST_LINES_DATA.getD ((⟨2, 0, 1⟩ : AcuityState).currentLineIndex - 1) default
         else DISTANCE_TEST_LINES_DATA.getD 0 default)) :=
  ⟨rfl, by decide, two_errors_best_line ⟨2, 0, 1⟩ "Q" rfl (by decide)⟩

/-- Claim C10: the explicit "Can't See Clearly" action.  On the very first
line it produces the sentinel result ("Worse than 6/60", line number 0,
decimal 0.05), which is strictly below the level-0 decimal (0.1) and matches
no catalogue line; on every later line k it yields exactly the line k−1
result; and for comparison, a second consecutive wrong answer on the first
line yields the level-0 result itself. -/
theorem cant_see_policy (st : AcuityState) :
    handleCantSee st =
      (if 0 < st.currentLineIndex
       then mkEyeResult (DISTANCE_TEST_LINES_DATA.getD (st.currentLineIndex - 1) default)
       else ⟨"Worse than 6/60", 0, 5/100⟩) ∧
    (5/100 : ℚ) < (DISTANCE_TEST_LINES_DATA.getD 0 default).decimal ∧
    ¬ ((5/100 : ℚ) ∈ DISTANCE_TEST_LINES_DATA.map (fun l => l.decimal)) ∧
    ¬ ((0 : ℕ) ∈ DISTANCE_TEST_LINES_DATA.map (fun l => l.line)) ∧
    (∀ answer : String,
      ¬ ((DISTANCE_TEST_LINES_DATA.getD 0 default).letters.get? 0 = some answer) →
      handleDistanceAnswer ⟨0, 0, 1⟩ answer =
        DistStep.finished (mkEyeResult (DISTANCE_TEST_LINES_DATA.getD 0 default))) := by
  refine ⟨rfl, by norm_num [DISTANCE_TEST_LINES_DATA], ?_, by simp [DISTANCE_TEST_LINES_DATA], ?_⟩
  · simp only [DISTANCE_TEST_LINES_DATA, List.map_cons, List.map_nil, List.mem_cons]
    norm_num
  · intro answer hwrong
    exact handleDistanceAnswer_second_error ⟨0, 0, 1⟩ answer rfl hwrong

/-- Witness for `cant_see_policy`'s inner hypothesis: the wrong answer "Z"
on the first line's only letter "E" with one error already recorded. -/
theorem cant_see_policy_witness :
    ¬ ((DISTANCE_TEST_LINES_DATA.getD 0 default).letters.get? 0 = some "Z") ∧
    handleDistanceAnswer ⟨0, 0, 1⟩ "Z" =
      DistStep.finished (mkEyeResult (DISTANCE_TEST_LINES_DATA.getD 0 default)) :=
  ⟨by decide, (cant_see_policy ⟨0, 0, 0⟩).2.2.2.2 "Z" (by decide)⟩

theorem jsRoundQ_mono {x y : ℚ} (h : x ≤ y) : jsRoundQ x ≤ jsRoundQ y :=
  Int.floor_le_floor (by linarith)

theorem jsRoundQ_eq {x : ℚ} {n : ℤ} (h1 : (n : ℚ) ≤ x + 1/2) (h2 : x + 1/2 < n + 1) :
    jsRoundQ x = n := by
  rw [jsRoundQ, Int.floor_eq_iff]
  refine ⟨h1, ?_⟩
  have : ((n + 1 : ℤ) : ℚ) = (n : ℚ) + 1 := by push_cast; ring
  linarith [this]

/-- Claim C4, counterexample: the near-vision chart is not clamped to any
maximum logical size.  At 160 dpi the J10 row's computed `fontSize` is 85,
while on a 100-unit-wide screen `MAX_LETTER_FONT` is 20: the near chart's
first level exceeds the only maximum the module has, so output size is not
"clamped to a caller-supplied maximum ... for every level of both charts"
(nor is any clamping reported: the produced rows carry only the bare
number). -/
theorem near_line_exceeds_max_font :
    ((NEAR_VISION_LINES 160).getD 0 default).fontSize = 85 ∧
    maxLetterFont 100 = 20 ∧
    ¬ (((NEAR_VISION_LINES 160).getD 0 default).fontSize ≤ jsRoundQ (maxLetterFont 100)) := by
  have h85 : jsRoundQ (mmToDp 160 (1350/100)) = 85 := by
    apply jsRoundQ_eq <;> norm_num [mmToDp]
  have h20 : jsRoundQ (maxLetterFont 100) = 20 := by
    apply jsRoundQ_eq <;> norm_num [maxLetterFont]
  have hfs : ((NEAR_VISION_LINES 160).getD 0 default).fontSize = 85 := by
    simp only [NEAR_VISION_LINES, NEAR_VISION_LINES_DATA, List.map_cons, List.getD_cons_zero]
    exact h85
  refine ⟨hfs, by norm_num [maxLetterFont], ?_⟩
  rw [hfs, h20]
  norm_num

/-- Claim C4 (amended): every distance-chart row's `fontSize` is silently
min-clamped to the module constant `MAX_LETTER_FONT = SCREEN_WIDTH - 80`
(not caller-supplied, and with no clamp indication in the output), while the
near-vision rows are not clamped at all and can exceed that maximum. -/
theorem distance_clamped_silently (baseDpi w : ℚ) (l : SizedDistLine)
    (hl : l ∈ DISTANCE_TEST_LINES baseDpi w) :
    l.fontSize ≤ jsRoundQ (maxLetterFont w) ∧
    ∃ w' : ℚ, ∃ l' ∈ NEAR_VISION_LINES 160, jsRoundQ (maxLetterFont w') < l'.fontSize := by
  constructor
  · simp only [DISTANCE_TEST_LINES, List.mem_map] at hl
    obtain ⟨row, _, rfl⟩ := hl
    exact jsRoundQ_mono (min_le_right _ _)
  · refine ⟨100, (NEAR_VISION_LINES 160).getD 0 default, ?_, ?_⟩
    · simp [NEAR_VISION_LINES, NEAR_VISION_LINES_DATA]
    · have h20 : jsRoundQ (maxLetterFont 100) = 20 := by
        apply jsRoundQ_eq <;> norm_num [maxLetterFont]
      have h85 : jsRoundQ (mmToDp 160 (1350/100)) = 85 := by
        apply jsRoundQ_eq <;> norm_num [mmToDp]
      simp only [NEAR_VISION_LINES, NEAR_VISION_LINES_DATA, List.map_cons, List.getD_cons_zero]
      rw [h20, h85]
      norm_num

/-- Witness for `distance_clamped_silently`: the 6/60 row at 160 dpi on a
390-unit-wide screen, whose computed font size is 275. -/
theorem distance_clamped_silently_witness :
    (⟨⟨1, "6/60", 1/10, ["E"], 4365/100⟩, 275⟩ : SizedDistLine) ∈ DISTANCE_TEST_LINES 160 390 ∧
    ((⟨⟨1, "6/60", 1/10, ["E"], 4365/100⟩, 275⟩ : SizedDistLine).fontSize ≤
        jsRoundQ (maxLetterFont 390) ∧
      ∃ w' : ℚ, ∃ l' ∈ NEAR_VISION_LINES 160, jsRoundQ (maxLetterFont w') < l'.fontSize) := by
  have h275 : jsRoundQ (min (mmToDp 160 (4365/100)) (maxLetterFont 390)) = 275 := by
    have hmin : min (mmToDp 160 (4365/100)) (maxLetterFont 390) = mmToDp 160 (4365/100) := by
      apply min_eq_left
      norm_num [mmToDp, maxLetterFont]
    rw [hmin]
    apply jsRoundQ_eq <;> norm_num [mmToDp]
  have hmem : (⟨⟨1, "6/60", 1/10, ["E"], 4365/100⟩, 275⟩ : SizedDistLine) ∈
      DISTANCE_TEST_LINES 160 390 := by
    simp only [DISTANCE_TEST_LINES, DISTANCE_TEST_LINES_DATA, List.map_cons, List.mem_cons]
    left
    rw [SizedDistLine.mk.injEq]
    exact ⟨rfl, h275.symm⟩
  exact ⟨hmem, distance_clamped_silently 160 390 _ hmem⟩

-- ─────────────────────────────────────────────────────────────────────
-- Color-vision diagnosis engine (ColorVisionTest component)
-- ─────────────────────────────────────────────────────────────────────

/-- `DeficiencyType` of the color-vision test. -/
inductive DeficiencyType
  | protan
  | deutan
  | tritan
  | normal
deriving DecidableEq, Repr

/-- Severity scale of the color-vision diagnosis. -/
inductive CvSeverity
  | none
  | mild
  | moderate
  | strong
deriving DecidableEq, Repr

/-- `PlateResult` of the color-vision test. -/
structure PlateResult where
  plateIndex : ℕ
  plateNumber : ℕ
  userAnswer : String
  correctAnswer : String
  isCorrect : Bool
  category : String
deriving DecidableEq, Repr

/-- `diagnose` of the color-vision test: classify a plate-response sequence
into deficiency type and severity.  (The source also computes
`totalScreening`/`totalErrors`, which it never reads; they are omitted.) -/
def diagnose (results : List PlateResult) : DeficiencyType × CvSeverity :=
  let rgPlates := results.filter (fun r =>
    r.category == "vanishing" || r.category == "transformation")
  let tritanPlates := results.filter (fun r => r.category == "tritan")
  let rgErrors := (rgPlates.filter (fun r => !r.isCorrect)).length
  let tritanErrors := (tritanPlates.filter (fun r => !r.isCorrect)).length
  if 0 < tritanErrors ∧ rgErrors ≤ 1 then
    (DeficiencyType.tritan, if 1 ≤ tritanErrors then CvSeverity.moderate else CvSeverity.mild)
  else if rgErrors = 0 then
    (DeficiencyType.normal, CvSeverity.none)
  else
    let diagnosticPlate := results.find? (fun r => r.plateIndex == 12)
    let defType :=
      match diagnosticPlate with
      | Option.some p =>
          if !p.isCorrect then
            (if p.userAnswer == "2" then DeficiencyType.protan else DeficiencyType.deutan)
          else DeficiencyType.deutan
      | Option.none => DeficiencyType.deutan
    let errorRate : ℚ := (rgErrors : ℚ) / (rgPlates.length : ℚ)
    let severity :=
      if errorRate ≤ 25/100 then CvSeverity.mild
      else if errorRate ≤ 6/10 then CvSeverity.moderate
      else CvSeverity.strong
    (defType, severity)

/-- The `score` field computed by `finishTest`:
`Math.round((correctCount / results.length) * 100)`.  For an empty response
list the JS division is `0/0 = NaN` and `Math.round(NaN)` is `NaN`;
`Option.none` models that non-numeric outcome. -/
def scoreOf (results : List PlateResult) : Option ℤ :=
  if results.length = 0 then Option.none
  else Option.some (jsRoundQ
    (((results.filter (fun r => r.isCorrect)).length : ℚ) / (results.length : ℚ) * 100))

/-- Claim C2: diagnosing from an empty plate-response list does NOT fail: it
silently returns the default diagnosis (`normal`, severity `none`) through
the `rgErrors == 0` branch, and `finishTest`'s score on the same input is the
non-numeric `NaN` (modelled `Option.none`), contradicting the spec's
fail-fast invalid-input requirement. -/
theorem diagnose_empty_defaults :
    diagnose [] = (DeficiencyType.normal, CvSeverity.none) ∧ scoreOf [] = Option.none := by
  constructor
  · rfl
  · rfl

-- ─────────────────────────────────────────────────────────────────────
-- Ishihara plate dot generation (ColorVisionTest component)
-- ─────────────────────────────────────────────────────────────────────

/-- `IshiharaPlate` of the color-vision test. -/
structure IshiharaPlate where
  id : ℕ
  correctAnswer : String
  deficientAnswer : String
  category : String
  figureColors : List String
  bgColors : List String
  digit : List (List ℕ)
deriving DecidableEq, Repr

/-- `DotData` of the color-vision test.  `fill` is the picked palette entry
(`Option.none` models the JS `undefined` an out-of-range index would give;
the generator's random values keep the index in range). -/
structure DotData where
  cx : ℚ
  cy : ℚ
  r : ℚ
  fill : Option String
deriving DecidableEq, Repr

/-- One step of `seededRandom`'s internal state:
`s = (s * 16807 + 0) % 2147483647` (exact in doubles for the states used). -/
def lcgNext (s : ℕ) : ℕ := (s * 16807) % 2147483647

/-- The value `seededRandom` returns after a state update:
`(s - 1) / 2147483646`. -/
def lcgVal (s : ℕ) : ℚ := ((s : ℕ) - 1 : ℚ) / 2147483646

/-- `pickColor`: `colors[Math.floor(rand() * colors.length)]`; an index
outside the array is JS `undefined` (`Option.none`). -/
def pickColor (colors : List String) (v : ℚ) : Option String :=
  let idx : ℤ := ⌊v * (colors.length : ℚ)⌋
  if 0 ≤ idx ∧ idx < (colors.length : ℤ) then Option.some (colors.getD idx.toNat "")
  else Option.none

/-- `isInDigit` of `generatePlateDots`: bound the point's center to a digit
grid cell (center-point only, no edge sampling) and look the cell up. -/
def isInDigit (grid : List (List ℕ)) (plateSize x y : ℚ) : Bool :=
  let rows := grid.length
  let cols := grid.headI.length
  let plateRadius := plateSize / 2
  let padding := plateSize * (4/100)
  let innerRadius := plateRadius - padding
  let maxDigitSize := innerRadius * (165/100)
  let aspectRatio : ℚ := (cols : ℚ) / (rows : ℚ)
  let digitWidth := if 1 < aspectRatio then maxDigitSize else maxDigitSize * aspectRatio
  let digitHeight := if 1 < aspectRatio then maxDigitSize / aspectRatio else maxDigitSize
  let digitLeft := plateRadius - digitWidth / 2
  let digitTop := plateRadius - digitHeight / 2
  let cellW := digitWidth / (cols : ℚ)
  let cellH := digitHeight / (rows : ℚ)
  let col : ℤ := ⌊(x - digitLeft) / cellW⌋
  let row : ℤ := ⌊(y - digitTop) / cellH⌋
  if row < 0 ∨ (rows : ℤ) ≤ row ∨ col < 0 ∨ (cols : ℤ) ≤ col then false
  else (grid.getD row.toNat []).getD col.toNat 0 == 1

/-- `isInsidePlate` of `generatePlateDots`.  The source checks
`Math.sqrt(dx*dx + dy*dy) + r <= innerRadius`; this is the equivalent
square form over `ℚ` (`sqrt v ≤ R - r` iff `0 ≤ R - r` and `v ≤ (R-r)²`);
`isInsidePlate_iff_sqrt` below proves the equivalence with the source's
square-root formulation over `ℝ`. -/
def isInsidePlate (plateSize x y r : ℚ) : Bool :=
  let plateRadius := plateSize / 2
  let padding := plateSize * (4/100)
  let innerRadius := plateRadius - padding
  let dx := x - plateRadius
  let dy := y - plateRadius
  if 0 ≤ innerRadius - r ∧ dx * dx + dy * dy ≤ (innerRadius - r) * (innerRadius - r)
  then true else false

theorem isInsidePlate_iff_sqrt (plateSize x y r : ℚ) :
    isInsidePlate plateSize x y r = true ↔
      Real.sqrt (((x : ℝ) - plateSize / 2) ^ 2 + ((y : ℝ) - plateSize / 2) ^ 2) + (r : ℝ) ≤
        (plateSize : ℝ) / 2 - (plateSize : ℝ) * (4/100) := by
  unfold isInsidePlate
  by_cases hC : 0 ≤ plateSize / 2 - plateSize * (4/100) - r ∧
      (x - plateSize / 2) * (x - plateSize / 2) + (y - plateSize / 2) * (y - plateSize / 2) ≤
        (plateSize / 2 - plateSize * (4/100) - r) * (plateSize / 2 - plateSize * (4/100) - r)
  · rw [if_pos hC]
    refine iff_of_true rfl ?_
    obtain ⟨h1, h2⟩ := hC
    have h1R : ((0 : ℚ) : ℝ) ≤ ((plateSize / 2 - plateSize * (4/100) - r : ℚ) : ℝ) :=
      Rat.cast_le.mpr h1
    have h2R : (((x - plateSize / 2) * (x - plateSize / 2) +
        (y - plateSize / 2) * (y - plateSize / 2) : ℚ) : ℝ) ≤
        (((plateSize / 2 - plateSize * (4/100) - r) *
          (plateSize / 2 - plateSize * (4/100) - r) : ℚ) : ℝ) :=
      Rat.cast_le.mpr h2
    push_cast at h1R h2R
    have hs : Real.sqrt (((x : ℝ) - plateSize / 2) ^ 2 + ((y : ℝ) - plateSize / 2) ^ 2) ≤
        ((plateSize : ℝ) / 2 - plateSize * (4/100)) - r :=
      Real.sqrt_le_iff.mpr ⟨by linarith, by nlinarith [h2R]⟩
    linarith
  · rw [if_neg hC]
    refine iff_of_false (by simp) ?_
    intro hle
    apply hC
    have hs : Real.sqrt (((x : ℝ) - plateSize / 2) ^ 2 + ((y : ℝ) - plateSize / 2) ^ 2) ≤
        ((plateSize : ℝ) / 2 - plateSize * (4/100)) - r := by linarith
    have h1R : (0 : ℝ) ≤ ((plateSize : ℝ) / 2 - plateSize * (4/100)) - r :=
      le_trans (Real.sqrt_nonneg _) hs
    have h2R := (Real.sqrt_le_iff.mp hs).2
    constructor
    · have : ((0 : ℚ) : ℝ) ≤ ((plateSize / 2 - plateSize * (4/100) - r : ℚ) : ℝ) := by
        push_cast
        linarith
      exact_mod_cast this
    · have : (((x - plateSize / 2) * (x - plateSize / 2) +
          (y - plateSize / 2) * (y - plateSize / 2) : ℚ) : ℝ) ≤
          (((plateSize / 2 - plateSize * (4/100) - r) *
            (plateSize / 2 - plateSize * (4/100) - r) : ℚ) : ℝ) := by
        push_cast
        nlinarith [h2R]
      exact_mod_cast this

/-- The body of `generatePlateDots`' inner loop for one grid point
`(gx, gy)`: draw jitter for `cx`, `cy`, a radius, and — when the dot fits in
the plate — a palette index, threading `seededRandom`'s state; a kept dot is
appended with radius `Math.max(r, baseDotR * 0.8)`. -/
def genDotStep (grid : List (List ℕ)) (figureColors bgColors : List String)
    (plateSize gx gy : ℚ) (acc : ℕ × List DotData) : ℕ × List DotData :=
  let baseDotR := plateSize * (19/1000)
  let dotVariance := plateSize * (5/1000)
  let jitter := baseDotR * (25/100)
  let s1 := lcgNext acc.1
  let cx := gx + (lcgVal s1 - 1/2) * jitter
  let s2 := lcgNext s1
  let cy := gy + (lcgVal s2 - 1/2) * jitter
  let s3 := lcgNext s2
  let r := baseDotR + (lcgVal s3 - 1/2) * dotVariance
  if isInsidePlate plateSize cx cy r then
    let s4 := lcgNext s3
    let fill := if isInDigit grid plateSize cx cy
      then pickColor figureColors (lcgVal s4)
      else pickColor bgColors (lcgVal s4)
    (s4, acc.2 ++ [⟨cx, cy, max r (baseDotR * (8/10)), fill⟩])
  else (s3, acc.2)

/-- Number of iterations of a JS loop `for (v = start; v < limit; v += step)`
with positive `step`: the k-th iteration sees `v = start + k * step`. -/
def iterCount (start limit step : ℚ) : ℕ :=
  if 0 < step ∧ start < limit then (⌈(limit - start) / step⌉).toNat else 0

/-- One pass of the inner (`gx`) loop of `generatePlateDots`, at height `gy`
with the row's hex offset `xOffset`. -/
def genRow (grid : List (List ℕ)) (figureColors bgColors : List String)
    (plateSize gy xOffset : ℚ) (acc : ℕ × List DotData) : ℕ × List DotData :=
  let baseDotR := plateSize * (19/1000)
  let padding := plateSize * (4/100)
  let dotSpacing := baseDotR * (215/100)
  let gx0 := padding + baseDotR + xOffset
  (List.range (iterCount gx0 (plateSize - padding) dotSpacing)).foldl
    (fun a (j : ℕ) => genDotStep grid figureColors bgColors plateSize
      (gx0 + (j : ℚ) * dotSpacing) gy a) acc

/-- `generatePlateDots` with the plate fields it actually reads made
explicit: the seed is `id * 1000 + 42` — a function of the plate id alone —
and the outer (`gy`) loop alternates the hex offset by row parity. -/
def generatePlateDotsCore (id : ℕ) (grid : List (List ℕ))
    (figureColors bgColors : List String) (plateSize : ℚ) : List DotData :=
  let baseDotR := plateSize * (19/1000)
  let padding := plateSize * (4/100)
  let dotSpacing := baseDotR * (215/100)
  let rowHeight := dotSpacing * (866/1000)
  let gy0 := padding + baseDotR
  ((List.range (iterCount gy0 (plateSize - padding) rowHeight)).foldl
    (fun a (k : ℕ) => genRow grid figureColors bgColors plateSize
      (gy0 + (k : ℚ) * rowHeight) (((k % 2 : ℕ) : ℚ) * (dotSpacing / 2)) a)
    (id * 1000 + 42, [])).2

/-- `generatePlateDots` of the color-vision test. -/
def generatePlateDots (p : IshiharaPlate) (plateSize : ℚ) : List DotData :=
  generatePlateDotsCore p.id p.digit p.figureColors p.bgColors plateSize

/-- The LCG output after any state update lies in `[-1/2147483646, 1)`
(`-1/2147483646` occurs only for the degenerate state 0, which the seeds in
the catalogue never reach; the bound is all the geometry needs). -/
theorem lcgVal_lcgNext_bounds (s : ℕ) :
    -(1/2147483646 : ℚ) ≤ lcgVal (lcgNext s) ∧ lcgVal (lcgNext s) < 1 := by
  have h1 : lcgNext s < 2147483647 := Nat.mod_lt _ (by norm_num)
  have h2 : ((lcgNext s : ℕ) : ℚ) ≤ 2147483646 := by
    exact_mod_cast Nat.lt_succ_iff.mp h1
  have h0 : (0 : ℚ) ≤ ((lcgNext s : ℕ) : ℚ) := Nat.cast_nonneg _
  unfold lcgVal
  constructor
  · rw [neg_div' 2147483646 1]
    rw [div_le_div_iff_of_pos_right (by norm_num)]
    linarith
  · rw [div_lt_one (by norm_num)]
    linarith

/-- For a positive plate size, any jittered radius
`baseDotR + (rand - 0.5) * dotVariance` stays at or above `0.8 * baseDotR`,
so the `Math.max` in the push is a no-op. -/
theorem radius_above_floor {S v : ℚ} (hS : 0 < S) (hv : -(1/2147483646 : ℚ) ≤ v) :
    S * (19/1000) * (8/10) ≤ S * (19/1000) + (v - 1/2) * (S * (5/1000)) := by
  nlinarith [mul_le_mul_of_nonneg_left hv (le_of_lt hS)]

/-- A dot pushed by `genDotStep` passed the `isInsidePlate` check with the
radius it was pushed with: the `Math.max(r, baseDotR * 0.8)` adjustment is a
no-op because the jittered radius already exceeds the floor. -/
theorem genDotStep_ok (grid : List (List ℕ)) (fc bc : List String) (S gx gy : ℚ)
    (hS : 0 < S) (acc : ℕ × List DotData)
    (hacc : ∀ d ∈ acc.2, isInsidePlate S d.cx d.cy d.r = true) :
    ∀ d ∈ (genDotStep grid fc bc S gx gy acc).2, isInsidePlate S d.cx d.cy d.r = true := by
  intro d hd
  rw [genDotStep] at hd
  simp only [] at hd
  split at hd
  case isTrue hin =>
    simp only [List.mem_append, List.mem_singleton] at hd
    rcases hd with hd | hd
    · exact hacc d hd
    · subst hd
      simp only []
      have hv := (lcgVal_lcgNext_bounds (lcgNext (lcgNext acc.1))).1
      have hmax : max (S * (19/1000) + (lcgVal (lcgNext (lcgNext (lcgNext acc.1))) - 1/2) *
          (S * (5/1000))) (S * (19/1000) * (8/10)) =
          S * (19/1000) + (lcgVal (lcgNext (lcgNext (lcgNext acc.1))) - 1/2) * (S * (5/1000)) :=
        max_eq_left (radius_above_floor hS hv)
      rw [hmax]
      exact hin
  case isFalse =>
    exact hacc d hd

/-- Folding a dot-list-preserving step over any list preserves the
`isInsidePlate` invariant of the accumulated dots. -/
theorem foldl_preserves {α : Type} (S : ℚ) (f : (ℕ × List DotData) → α → ℕ × List DotData)
    (hf : ∀ acc a, (∀ d ∈ acc.2, isInsidePlate S d.cx d.cy d.r = true) →
      ∀ d ∈ (f acc a).2, isInsidePlate S d.cx d.cy d.r = true) :
    ∀ (l : List α) (acc : ℕ × List DotData),
      (∀ d ∈ acc.2, isInsidePlate S d.cx d.cy d.r = true) →
      ∀ d ∈ (l.foldl f acc).2, isInsidePlate S d.cx d.cy d.r = true := by
  intro l
  induction l with
  | nil => intro acc h; simpa using h
  | cons a t ih =>
      intro acc h
      simp only [List.foldl_cons]
      exact ih _ (hf acc a h)

theorem genRow_ok (grid : List (List ℕ)) (fc bc : List String) (S gy xOffset : ℚ)
    (hS : 0 < S) (acc : ℕ × List DotData)
    (hacc : ∀ d ∈ acc.2, isInsidePlate S d.cx d.cy d.r = true) :
    ∀ d ∈ (genRow grid fc bc S gy xOffset acc).2, isInsidePlate S d.cx d.cy d.r = true := by
  unfold genRow
  exact foldl_preserves S _ (fun acc' j h => genDotStep_ok grid fc bc S _ gy hS acc' h) _ acc hacc

theorem generatePlateDotsCore_ok (id : ℕ) (grid : List (List ℕ)) (fc bc : List String)
    (S : ℚ) (hS : 0 < S) :
    ∀ d ∈ generatePlateDotsCore id grid fc bc S, isInsidePlate S d.cx d.cy d.r = true := by
  unfold generatePlateDotsCore
  exact foldl_preserves S _ (fun acc k h => genRow_ok grid fc bc S _ _ hS acc h) _ _ (by simp)

/-- Every generated dot lies entirely inside the plate's inner circle
(`innerRadius = plateSize/2 - plateSize*0.04`): center distance plus final
radius is bounded by the inner radius. -/
def DotsInsidePlate (p : IshiharaPlate) (plateSize : ℚ) : Prop :=
  ∀ d ∈ generatePlateDots p plateSize,
    Real.sqrt (((d.cx : ℝ) - plateSize / 2) ^ 2 + ((d.cy : ℝ) - plateSize / 2) ^ 2) + (d.r : ℝ) ≤
      (plateSize : ℝ) / 2 - (plateSize : ℝ) * (4/100)

/-- Claim C9: every dot emitted by the generator fits inside the inner
circle, including its final radius — the post-check
`Math.max(r, 0.8·baseDotR)` never enlarges the radius because the minimum
jittered radius already exceeds `0.8·baseDotR` for the fixed coefficients. -/
theorem dots_stay_inside_plate (p : IshiharaPlate) (S : ℚ) (hS : 0 < S) :
    DotsInsidePlate p S := by
  intro d hd
  have hok : isInsidePlate S d.cx d.cy d.r = true :=
    generatePlateDotsCore_ok p.id p.digit p.figureColors p.bgColors S hS d hd
  exact (isInsidePlate_iff_sqrt S d.cx d.cy d.r).mp hok

/-- Digit mask of plate 1 (`DIGIT_PATTERNS['12']`). -/
def DIGIT_12 : List (List ℕ) :=
  [ [0,1,1,0,0,0,1,1,1,1,0,0],
    [1,1,1,0,0,1,1,1,1,1,1,0],
    [1,1,1,0,1,1,0,0,0,1,1,0],
    [0,1,1,0,0,0,0,0,0,1,1,0],
    [0,1,1,0,0,0,0,0,1,1,0,0],
    [0,1,1,0,0,0,0,1,1,0,0,0],
    [0,1,1,0,0,0,1,1,0,0,0,0],
    [0,1,1,0,1,1,1,1,1,1,1,1],
    [1,1,1,0,1,1,1,1,1,1,1,1] ]

/-- Plate 1 of `ISHIHARA_PLATES` (the demonstration plate). -/
def ISHIHARA_PLATE_1 : IshiharaPlate :=
  ⟨1, "12", "12", "demonstration",
    ["#E84030", "#D43828", "#F04838", "#CC3020", "#E85040"],
    ["#5AAF5A", "#4CA04C", "#68BF68", "#3E903E", "#78CF78"],
    DIGIT_12⟩

/-- Witness for `dots_stay_inside_plate`: plate 1 at render size 300. -/
theorem dots_stay_inside_plate_witness :
    (0 : ℚ) < 300 ∧ DotsInsidePlate ISHIHARA_PLATE_1 300 :=
  ⟨by norm_num, dots_stay_inside_plate ISHIHARA_PLATE_1 300 (by norm_num)⟩

/-- Claim C5: the dot generator is a pure function of the plate's id, digit
mask, palettes and the render size — two runs on plates agreeing on those
fields produce bit-identical dot sequences — and it factors through
`generatePlateDotsCore`, whose pseudo-random stream is seeded with
`id * 1000 + 42`, a function of the plate id alone. -/
theorem generate_dots_deterministic (p q : IshiharaPlate) (S : ℚ)
    (hid : p.id = q.id) (hdg : p.digit = q.digit)
    (hfc : p.figureColors = q.figureColors) (hbc : p.bgColors = q.bgColors) :
    generatePlateDots p S = generatePlateDots q S ∧
    generatePlateDots p S = generatePlateDotsCore p.id p.digit p.figureColors p.bgColors S := by
  constructor
  · unfold generatePlateDots
    rw [hid, hdg, hfc, hbc]
  · rfl

/-- A second record for plate 1 with different presentational fields
(answers/category) but the same id, digit and palettes. -/
def PLATE_1_VARIANT : IshiharaPlate :=
  ⟨1, "twelve", "nothing", "test-copy",
    ["#E84030", "#D43828", "#F04838", "#CC3020", "#E85040"],
    ["#5AAF5A", "#4CA04C", "#68BF68", "#3E903E", "#78CF78"],
    DIGIT_12⟩

/-- Witness for `generate_dots_deterministic`: two distinct plate records
sharing id/digit/palettes generate identical dots at size 300. -/
theorem generate_dots_deterministic_witness :
    ISHIHARA_PLATE_1.id = PLATE_1_VARIANT.id ∧
    ISHIHARA_PLATE_1.digit = PLATE_1_VARIANT.digit ∧
    ISHIHARA_PLATE_1.figureColors = PLATE_1_VARIANT.figureColors ∧
    ISHIHARA_PLATE_1.bgColors = PLATE_1_VARIANT.bgColors ∧
    (generatePlateDots ISHIHARA_PLATE_1 300 = generatePlateDots PLATE_1_VARIANT 300 ∧
     generatePlateDots ISHIHARA_PLATE_1 300 =
       generatePlateDotsCore ISHIHARA_PLATE_1.id ISHIHARA_PLATE_1.digit
         ISHIHARA_PLATE_1.figureColors ISHIHARA_PLATE_1.bgColors 300) :=
  ⟨rfl, rfl, rfl, rfl,
    generate_dots_deterministic ISHIHARA_PLATE_1 PLATE_1_VARIANT 300 rfl rfl rfl rfl⟩

-- ─────────────────────────────────────────────────────────────────────
-- Circular mean and suspected axis (claim C7)
-- ─────────────────────────────────────────────────────────────────────

/-- `atan2`'s output, rescaled to degrees, lies in `(-180, 180]`. -/
theorem atan2_deg_bounds (y x : ℝ) :
    -180 < atan2 y x * 180 / Real.pi ∧ atan2 y x * 180 / Real.pi ≤ 180 := by
  have hπ := Real.pi_pos
  have h1 : -Real.pi < atan2 y x := Complex.neg_pi_lt_arg _
  have h2 : atan2 y x ≤ Real.pi := Complex.arg_le_pi _
  constructor
  · rw [lt_div_iff₀ hπ]
    nlinarith
  · rw [div_le_iff₀ hπ]
    nlinarith

/-- The spec-worded circular mean is normalized into `[0°, 180°)`. -/
theorem circularMeanSpec_mem (angles : List ℚ) :
    0 ≤ circularMeanSpec angles ∧ circularMeanSpec angles < 180 := by
  simp only [circularMeanSpec]
  obtain ⟨h1, h2⟩ := atan2_deg_bounds
    ((angles.map (fun (a : ℚ) => Real.sin (((a : ℝ) * 2 * Real.pi) / 180))).sum)
    ((angles.map (fun (a : ℚ) => Real.cos (((a : ℝ) * 2 * Real.pi) / 180))).sum)
  split
  next h => exact ⟨by linarith, by linarith⟩
  next h => exact ⟨by linarith, by linarith⟩

/-- On a singleton list the spec-worded circular mean returns the angle
itself (the doubled angle of a meridian in `[0°,180°)` lies in `[0°,360°)`,
and `atan2` recovers it modulo 360°). -/
theorem circularMeanSpec_singleton {a : ℚ} (h0 : 0 ≤ a) (h1 : a < 180) :
    circularMeanSpec [a] = (a : ℝ) := by
  have hπ := Real.pi_pos
  have h0R : (0 : ℝ) ≤ (a : ℝ) := by exact_mod_cast h0
  have h1R : (a : ℝ) < 180 := by exact_mod_cast h1
  unfold circularMeanSpec
  simp only [List.map_cons, List.map_nil, List.sum_cons, List.sum_nil, add_zero]
  by_cases hcase : (a : ℝ) ≤ 90
  · have hθπ : (a : ℝ) * 2 * Real.pi / 180 ≤ Real.pi := by
      rw [div_le_iff₀ (by norm_num)]
      nlinarith
    have hθ0 : 0 ≤ (a : ℝ) * 2 * Real.pi / 180 := by positivity
    have harg : atan2 (Real.sin ((a : ℝ) * 2 * Real.pi / 180))
        (Real.cos ((a : ℝ) * 2 * Real.pi / 180)) = (a : ℝ) * 2 * Real.pi / 180 := by
      unfold atan2
      rw [Complex.ofReal_cos, Complex.ofReal_sin]
      exact Complex.arg_cos_add_sin_mul_I ⟨by linarith, hθπ⟩
    rw [harg]
    have hm : (a : ℝ) * 2 * Real.pi / 180 * 180 / Real.pi = 2 * a := by
      field_simp
      ring
    rw [hm, if_neg (by linarith)]
    ring
  · have hθgt : Real.pi < (a : ℝ) * 2 * Real.pi / 180 := by
      rw [lt_div_iff₀ (by norm_num)]
      nlinarith
    have hθlt : (a : ℝ) * 2 * Real.pi / 180 < 2 * Real.pi := by
      rw [div_lt_iff₀ (by norm_num)]
      nlinarith
    have hsub : (a : ℝ) * 2 * Real.pi / 180 - 2 * Real.pi ∈ Set.Ioc (-Real.pi) Real.pi :=
      ⟨by linarith, by linarith⟩
    have harg : atan2 (Real.sin ((a : ℝ) * 2 * Real.pi / 180))
        (Real.cos ((a : ℝ) * 2 * Real.pi / 180)) =
        (a : ℝ) * 2 * Real.pi / 180 - 2 * Real.pi := by
      unfold atan2
      rw [← Real.sin_sub_two_pi, ← Real.cos_sub_two_pi,
        Complex.ofReal_cos, Complex.ofReal_sin]
      exact Complex.arg_cos_add_sin_mul_I hsub
    rw [harg]
    have hm : ((a : ℝ) * 2 * Real.pi / 180 - 2 * Real.pi) * 180 / Real.pi = 2 * a - 360 := by
      field_simp
      ring
    rw [hm, if_pos (by linarith)]
    ring

/-- `averageAngles` computes exactly the spec-worded circular mean for every
non-empty angle list in `[0°, 180°)`: the length-1 shortcut returns the
angle the formula would produce, and for longer lists the trailing `% 180`
is the identity because the halved mean already lies in `[0°, 180°)`. -/
theorem averageAngles_eq_spec (fp : List ℚ) (hne : fp ≠ [])
    (hrange : ∀ a ∈ fp, 0 ≤ a ∧ a < 180) :
    averageAngles fp = circularMeanSpec fp := by
  match fp with
  | [] => exact absurd rfl hne
  | [a] =>
      obtain ⟨h0, h1⟩ := hrange a (by simp)
      rw [circularMeanSpec_singleton h0 h1]
      simp [averageAngles]
  | a :: b :: t =>
      have heq : averageAngles (a :: b :: t) = fmodR (circularMeanSpec (a :: b :: t)) 180 := by
        simp only [averageAngles, circularMeanSpec, List.length_cons]
        rw [if_neg (by omega), if_neg (by omega)]
      rw [heq]
      obtain ⟨hm0, hm1⟩ := circularMeanSpec_mem (a :: b :: t)
      exact fmodR_eq_self hm0 hm1

/-- `averageAngles` on the wrap-straddling pair {10°, 170°}: the doubled
angles 20° and 340° have opposite sines and equal positive cosines, so the
circular mean is exactly 0° — near the 0°/180° wrap, not 90°. -/
theorem averageAngles_ten_170 : averageAngles [10, 170] = 0 := by
  have hπ := Real.pi_pos
  have h1 : ((10 : ℚ) : ℝ) * 2 * Real.pi / 180 = Real.pi / 9 := by
    push_cast
    ring
  have h2 : ((170 : ℚ) : ℝ) * 2 * Real.pi / 180 = -(Real.pi / 9) + 2 * Real.pi := by
    push_cast
    ring
  simp only [averageAngles, List.length_cons, List.length_nil]
  rw [if_neg (by omega), if_neg (by omega)]
  simp only [List.map_cons, List.map_nil, List.sum_cons, List.sum_nil, add_zero]
  rw [h1, h2, Real.sin_add_two_pi, Real.cos_add_two_pi, Real.sin_neg, Real.cos_neg]
  have hsin : Real.sin (Real.pi / 9) + -Real.sin (Real.pi / 9) = 0 := by ring
  have hcospos : 0 < Real.cos (Real.pi / 9) :=
    Real.cos_pos_of_mem_Ioo ⟨by linarith, by linarith⟩
  rw [hsin]
  have hatan : atan2 0 (Real.cos (Real.pi / 9) + Real.cos (Real.pi / 9)) = 0 := by
    unfold atan2
    rw [Complex.ofReal_zero, zero_mul, add_zero]
    exact Complex.arg_ofReal_of_nonneg (by linarith)
  rw [hatan, zero_mul, zero_div, if_neg (by norm_num)]
  norm_num [fmodR]

/-- Claim C7: for every non-uniform round-1 selection (angles in the dial's
[0°,180°) range), the mean `averageAngles` computes is the spec's circular
mean (double into [0°,360°), sum sines/cosines, `atan2`, halve back into
[0°,180°)), and the reported suspected axis is that mean rotated by +90°,
normalized into [0°,180°) and rounded to an integer; the pair {10°, 170°}
averages to exactly 0°, not 90°. -/
theorem suspected_axis_is_circular_mean (fp sp : List ℚ) (hne : fp ≠ [])
    (hrange : ∀ a ∈ fp, 0 ≤ a ∧ a < 180) :
    averageAngles fp = circularMeanSpec fp ∧
    (interpretEyeResult fp sp).suspectedAxis =
      Option.some (jsRoundR (fmodR (circularMeanSpec fp + 90) 180)) ∧
    averageAngles [10, 170] = 0 := by
  have heq := averageAngles_eq_spec fp hne hrange
  have hlen : fp.length ≠ 0 := by simpa using hne
  refine ⟨heq, ?_, averageAngles_ten_170⟩
  rw [interpretEyeResult, if_neg hlen]
  simp only [heq]

/-- Witness for `suspected_axis_is_circular_mean` at round 1 = {10°, 170°},
round 2 = {15°}. -/
theorem suspected_axis_is_circular_mean_witness :
    ([10, 170] : List ℚ) ≠ [] ∧
    (∀ a ∈ ([10, 170] : List ℚ), 0 ≤ a ∧ a < 180) ∧
    (averageAngles [10, 170] = circularMeanSpec [10, 170] ∧
     (interpretEyeResult [10, 170] [15]).suspectedAxis =
       Option.some (jsRoundR (fmodR (circularMeanSpec [10, 170] + 90) 180)) ∧
     averageAngles [10, 170] = 0) :=
  ⟨by simp, by norm_num,
    suspected_axis_is_circular_mean [10, 170] [15] (by simp) (by norm_num)⟩
